import Mathlib

/-!
Verification of the mortgage-calculator core in src/client/pages/Index.tsx.

The numeric core is embedded over the rationals: JavaScript arithmetic on the
exercised inputs is modelled by exact rational arithmetic, and the platform
rounding Math.round x is modelled as the floor of x + 1/2 (ties toward
positive infinity, which agrees with round-half-away-from-zero on the
non-negative values produced here).  String-to-number conversion is modelled
on the optionally signed decimal-literal fragment of the JavaScript Number
coercion, which is the fragment the numeric form inputs can produce.
-/

namespace Mortgage

/-- The two mortgage types of the MortgageType union in Index.tsx. -/
inductive MortgageType where
  | repayment
  | interestOnly
deriving DecidableEq

/-- The CalculationResult record of Index.tsx. -/
structure CalculationResult where
  monthlyPayment : ℚ
  totalPayment : ℚ
  totalInterest : ℚ
deriving DecidableEq

/-- JavaScript Math.round: floor of x + 1/2 (ties go toward positive
infinity). -/
def jsRound (x : ℚ) : ℤ := ⌊x + 1 / 2⌋

/-- Rounding to two decimal places as done at the end of calculateMortgage:
Math.round (x * 100) / 100. -/
def round2 (x : ℚ) : ℚ := (jsRound (x * 100) : ℚ) / 100

/-- The unrounded computation of calculateMortgage (Index.tsx lines 75-100):
monthlyRate = annualRate / 100 / 12, numberOfPayments = years * 12, then the
repayment branch (linear when monthlyRate = 0, else the annuity formula) or
the interest-only branch.  The validator guarantees years is a positive
integer, so the term is taken as a natural number. -/
def calcRaw (principal annualRate : ℚ) (years : ℕ) (t : MortgageType) :
    CalculationResult :=
  let monthlyRate := annualRate / 100 / 12
  let numberOfPayments : ℕ := years * 12
  match t with
  | .repayment =>
    let monthlyPayment :=
      if monthlyRate = 0 then principal / (numberOfPayments : ℚ)
      else
        principal * (monthlyRate * (1 + monthlyRate) ^ numberOfPayments) /
          ((1 + monthlyRate) ^ numberOfPayments - 1)
    let totalPayment := monthlyPayment * (numberOfPayments : ℚ)
    { monthlyPayment := monthlyPayment
      totalPayment := totalPayment
      totalInterest := totalPayment - principal }
  | .interestOnly =>
    let monthlyPayment := principal * monthlyRate
    { monthlyPayment := monthlyPayment
      totalPayment := principal + monthlyPayment * (numberOfPayments : ℚ)
      totalInterest := monthlyPayment * (numberOfPayments : ℚ) }

/-- calculateMortgage (Index.tsx lines 75-106): the unrounded computation
followed by independent two-decimal rounding of each output field (the
setResult call at lines 102-106). -/
def calculateMortgage (principal annualRate : ℚ) (years : ℕ)
    (t : MortgageType) : CalculationResult :=
  let raw := calcRaw principal annualRate years t
  { monthlyPayment := round2 raw.monthlyPayment
    totalPayment := round2 raw.totalPayment
    totalInterest := round2 raw.totalInterest }

/-- The annuity formula exactly as the specification words it in section 4.2:
with r = annualRatePercent / 100 / 12 and n = termYears * 12, monthlyPayment
is P / n when r = 0 and P * (r * (1+r)^n) / ((1+r)^n - 1) otherwise.  Stated
from the specification for comparison with the code's computation. -/
def specMonthlyRepayment (P rate : ℚ) (termYears : ℕ) : ℚ :=
  let r := rate / 100 / 12
  let n : ℕ := termYears * 12
  if r = 0 then P / (n : ℚ) else P * (r * (1 + r) ^ n) / ((1 + r) ^ n - 1)

/-! ### The JavaScript Number coercion on decimal literals -/

/-- Decimal digit test, as an optional digit value. -/
def digit? (c : Char) : Option ℕ :=
  if '0' ≤ c ∧ c ≤ '9' then some (c.toNat - Char.toNat '0') else none

/-- Numeric value of a digit string (most significant digit first). -/
def digitsVal (l : List Char) : ℕ :=
  l.foldl (fun a c => 10 * a + (digit? c).getD 0) 0

/-- A parsed unsigned-or-signed decimal literal: sign, integer part, and the
fractional digits as a numerator together with their count. -/
structure DecimalLit where
  negative : Bool
  intPart : ℕ
  fracNum : ℕ
  fracLen : ℕ
deriving DecidableEq

/-- The rational value of a decimal literal. -/
def DecimalLit.toRat (d : DecimalLit) : ℚ :=
  (cond d.negative (-1) 1) * ((d.intPart : ℕ) + (d.fracNum : ℚ) / (10 : ℚ) ^ d.fracLen)

/-- Parse an unsigned decimal literal: digits, optionally followed by a point
and further digits; a bare point with no digits on either side is rejected,
as is any other stray character. -/
def parseUnsigned (cs : List Char) : Option DecimalLit :=
  let intDigits := cs.takeWhile fun c => (digit? c).isSome
  let rest := cs.dropWhile fun c => (digit? c).isSome
  match rest with
  | [] =>
    if intDigits.isEmpty then none
    else some ⟨false, digitsVal intDigits, 0, 0⟩
  | '.' :: frac =>
    if frac.all fun c => (digit? c).isSome then
      if intDigits.isEmpty && frac.isEmpty then none
      else some ⟨false, digitsVal intDigits, digitsVal frac, frac.length⟩
    else none
  | _ => none

/-- Parse an optionally signed decimal literal. -/
def parseSigned (cs : List Char) : Option DecimalLit :=
  match cs with
  | '-' :: rest => (parseUnsigned rest).map fun d => { d with negative := true }
  | '+' :: rest => parseUnsigned rest
  | _ => parseUnsigned cs

/-- JavaScript string whitespace as trimmed by the Number coercion
(restricted to the common whitespace characters). -/
def jsWhitespace (c : Char) : Bool :=
  c == ' ' || c == '\t' || c == '\n' || c == '\r'

/-- Model of the JavaScript Number string coercion on the decimal fragment:
whitespace is trimmed, the empty string converts to 0, and otherwise an
optionally signed decimal literal is required; none models NaN.  (Exponent,
hexadecimal and Infinity forms lie outside the fragment the numeric form
inputs produce and are mapped to none.) -/
def jsNumber (s : String) : Option ℚ :=
  let t := ((s.data.dropWhile jsWhitespace).reverse.dropWhile jsWhitespace).reverse
  if t.isEmpty then some 0
  else (parseSigned t).map DecimalLit.toRat

/-! ### The validator -/

/-- The FormErrors record of Index.tsx, restricted to the three fields the
validator can actually set (the mortgageType key of the interface is never
assigned). -/
structure FormErrors where
  loanAmount : Option String
  interestRate : Option String
  loanTerm : Option String
deriving DecidableEq

/-- The loan-amount rule of validateForm (Index.tsx lines 41-45): empty is
reported as required; a string that fails the numeric coercion (NaN) or whose
value is not positive is reported as invalid. -/
def validateLoanAmount (s : String) : Option String :=
  if s = "" then some "Loan amount is required"
  else
    match jsNumber s with
    | none => some "Please enter a valid loan amount"
    | some v => if v ≤ 0 then some "Please enter a valid loan amount" else none

/-- The interest-rate rule of validateForm (Index.tsx lines 47-51): empty is
required; NaN or a negative value is invalid (zero is accepted). -/
def validateInterestRate (s : String) : Option String :=
  if s = "" then some "Interest rate is required"
  else
    match jsNumber s with
    | none => some "Please enter a valid interest rate"
    | some v => if v < 0 then some "Please enter a valid interest rate" else none

/-- The loan-term rule of validateForm (Index.tsx lines 53-61): empty is
required; NaN, a non-positive value, or a non-integer value is invalid.  The
Number.isInteger test is modelled as the value equalling its own floor. -/
def validateLoanTerm (s : String) : Option String :=
  if s = "" then some "Loan term is required"
  else
    match jsNumber s with
    | none => some "Please enter a valid loan term in years"
    | some v =>
      if v ≤ 0 ∨ (⌊v⌋ : ℚ) ≠ v then some "Please enter a valid loan term in years"
      else none

/-- validateForm (Index.tsx lines 38-65): the three per-field rules, each
applied to its own raw string, assembled into the error record. -/
def validateForm (loanAmount interestRate loanTerm : String) : FormErrors :=
  { loanAmount := validateLoanAmount loanAmount
    interestRate := validateInterestRate interestRate
    loanTerm := validateLoanTerm loanTerm }

/-- The number of keys set in the error record (Object.keys length at
Index.tsx line 64). -/
def errorCount (e : FormErrors) : ℕ :=
  (if e.loanAmount.isSome then 1 else 0) +
    (if e.interestRate.isSome then 1 else 0) +
    (if e.loanTerm.isSome then 1 else 0)

/-- The boolean validateForm returns: the error record has no keys. -/
def formValid (e : FormErrors) : Bool := errorCount e == 0

/-! ### The component state and the Calculate action -/

/-- The state of the Index component (Index.tsx lines 30-36): the three raw
input strings, the selected mortgage type, the optional stored result, the
error record and the submitted flag. -/
structure IndexState where
  loanAmount : String
  interestRate : String
  loanTerm : String
  mortgageType : MortgageType
  result : Option CalculationResult
  errors : FormErrors
  submitted : Bool
deriving DecidableEq

/-- The calculateMortgage click handler (Index.tsx lines 67-107) as a state
transition: validateForm computes and stores the error record; when it
reports failure only submitted is additionally set and the handler returns;
otherwise the inputs are coerced to numbers, the term is taken as a natural
number (the validator guarantees it is a positive integer), and the rounded
result is stored. -/
def calculateMortgageAction (s : IndexState) : IndexState :=
  let e := validateForm s.loanAmount s.interestRate s.loanTerm
  if formValid e then
    let principal := (jsNumber s.loanAmount).getD 0
    let annualRate := (jsNumber s.interestRate).getD 0
    let years := ((jsNumber s.loanTerm).getD 0).num.toNat
    { s with
      errors := e
      submitted := true
      result := some (calculateMortgage principal annualRate years s.mortgageType) }
  else { s with errors := e, submitted := true }

/-- The results card is rendered exactly when a result is stored
(Index.tsx line 283). -/
def displaysResult (s : IndexState) : Bool := s.result.isSome

/-! ### Evaluation lemmas -/

theorem jsRound_eq {x : ℚ} {k : ℤ} (h1 : (k : ℚ) ≤ x + 1 / 2)
    (h2 : x + 1 / 2 < k + 1) : jsRound x = k :=
  Int.floor_eq_iff.mpr ⟨h1, h2⟩

theorem round2_eq {x : ℚ} {k : ℤ} (h1 : (k : ℚ) ≤ x * 100 + 1 / 2)
    (h2 : x * 100 + 1 / 2 < k + 1) : round2 x = (k : ℚ) / 100 := by
  rw [round2, jsRound_eq h1 h2]

theorem validateLoanAmount_some {s : String} {v : ℚ} (hs : s ≠ "")
    (hp : jsNumber s = some v) (hv : 0 < v) : validateLoanAmount s = none := by
  rw [validateLoanAmount, if_neg hs, hp]
  simp [hv.not_le]

theorem validateInterestRate_some {s : String} {v : ℚ} (hs : s ≠ "")
    (hp : jsNumber s = some v) (hv : 0 ≤ v) : validateInterestRate s = none := by
  rw [validateInterestRate, if_neg hs, hp]
  simp [hv.not_lt]

theorem validateInterestRate_neg {s : String} {v : ℚ} (hs : s ≠ "")
    (hp : jsNumber s = some v) (hv : v < 0) :
    validateInterestRate s = some "Please enter a valid interest rate" := by
  rw [validateInterestRate, if_neg hs, hp]
  simp [hv]

theorem validateLoanTerm_some {s : String} {v : ℚ} (hs : s ≠ "")
    (hp : jsNumber s = some v) (hv : 0 < v) (hi : (⌊v⌋ : ℚ) = v) :
    validateLoanTerm s = none := by
  rw [validateLoanTerm, if_neg hs, hp]
  simp [hv.not_le, hi]

theorem validateLoanTerm_reject {s : String} {v : ℚ} (hs : s ≠ "")
    (hp : jsNumber s = some v) (hc : v ≤ 0 ∨ (⌊v⌋ : ℚ) ≠ v) :
    validateLoanTerm s = some "Please enter a valid loan term in years" := by
  rw [validateLoanTerm, if_neg hs, hp]
  simp only [if_pos hc]

theorem floor_eval {v : ℚ} {k : ℤ} (h1 : (k : ℚ) ≤ v) (h2 : v < k + 1) :
    (⌊v⌋ : ℚ) = (k : ℚ) := by
  rw [Int.floor_eq_iff.mpr ⟨h1, h2⟩]

theorem monthlyRate_eq_zero_iff {rate : ℚ} : rate / 100 / 12 = 0 ↔ rate = 0 := by
  rw [div_eq_zero_iff, div_eq_zero_iff]
  norm_num

theorem round2_mono {x y : ℚ} (h : x ≤ y) : round2 x ≤ round2 y := by
  rw [round2, round2]
  have : jsRound (x * 100) ≤ jsRound (y * 100) := by
    rw [jsRound, jsRound]
    exact Int.floor_le_floor (by linarith)
  exact div_le_div_of_nonneg_right (by exact_mod_cast this) (by norm_num)

theorem round2_zero : round2 0 = 0 := by
  rw [round2, jsRound_eq (k := 0) (by norm_num) (by norm_num)]
  norm_num

theorem round2_nonneg {x : ℚ} (h : 0 ≤ x) : 0 ≤ round2 x := by
  have := round2_mono h
  rwa [round2_zero] at this

/-- Concrete evaluations of the Number coercion used by the claims. -/
theorem jsNumber_120000 : jsNumber "120000" = some 120000 := by
  rw [show jsNumber "120000" = some (DecimalLit.toRat ⟨false, 120000, 0, 0⟩) from rfl]
  rw [DecimalLit.toRat]
  norm_num

theorem jsNumber_zero_str : jsNumber "0" = some 0 := by
  rw [show jsNumber "0" = some (DecimalLit.toRat ⟨false, 0, 0, 0⟩) from rfl]
  rw [DecimalLit.toRat]
  norm_num

theorem jsNumber_ten : jsNumber "10" = some 10 := by
  rw [show jsNumber "10" = some (DecimalLit.toRat ⟨false, 10, 0, 0⟩) from rfl]
  rw [DecimalLit.toRat]
  norm_num

theorem jsNumber_thirty : jsNumber "30" = some 30 := by
  rw [show jsNumber "30" = some (DecimalLit.toRat ⟨false, 30, 0, 0⟩) from rfl]
  rw [DecimalLit.toRat]
  norm_num

theorem jsNumber_six_point_five : jsNumber "6.5" = some (13 / 2) := by
  rw [show jsNumber "6.5" = some (DecimalLit.toRat ⟨false, 6, 5, 1⟩) from rfl]
  rw [DecimalLit.toRat]
  norm_num

theorem jsNumber_neg_one : jsNumber "-1" = some (-1) := by
  rw [show jsNumber "-1" = some (DecimalLit.toRat ⟨true, 1, 0, 0⟩) from rfl]
  rw [DecimalLit.toRat]
  norm_num

theorem jsNumber_two_point_five : jsNumber "2.5" = some (5 / 2) := by
  rw [show jsNumber "2.5" = some (DecimalLit.toRat ⟨false, 2, 5, 1⟩) from rfl]
  rw [DecimalLit.toRat]
  norm_num

theorem jsNumber_abc : jsNumber "abc" = none := rfl

theorem validateLoanAmount_120000 : validateLoanAmount "120000" = none :=
  validateLoanAmount_some (by decide) jsNumber_120000 (by norm_num)

theorem validateInterestRate_zero_str : validateInterestRate "0" = none :=
  validateInterestRate_some (by decide) jsNumber_zero_str le_rfl

theorem validateInterestRate_const65 : validateInterestRate "6.5" = none :=
  validateInterestRate_some (by decide) jsNumber_six_point_five (by norm_num)

theorem validateLoanTerm_ten : validateLoanTerm "10" = none := by
  refine validateLoanTerm_some (by decide) jsNumber_ten (by norm_num) ?_
  rw [floor_eval (k := 10) (by norm_num) (by norm_num)]
  norm_num

theorem validateLoanTerm_thirty : validateLoanTerm "30" = none := by
  refine validateLoanTerm_some (by decide) jsNumber_thirty (by norm_num) ?_
  rw [floor_eval (k := 30) (by norm_num) (by norm_num)]
  norm_num

theorem validateForm_valid_example :
    validateForm "120000" "0" "10" = ⟨none, none, none⟩ := by
  rw [validateForm, validateLoanAmount_120000, validateInterestRate_zero_str,
    validateLoanTerm_ten]

theorem validateForm_invalid_example :
    validateForm "" "6.5" "30" = ⟨some "Loan amount is required", none, none⟩ := by
  rw [validateForm, validateInterestRate_const65, validateLoanTerm_thirty]
  rfl

/-! ### Claims C1-C4: the calculator against the specified formulas -/

/-- C1: for every input, the repayment branch of calculate computes, with
r = annualRatePercent/100/12 and n = termYears*12, the specified monthly
payment (P/n when r = 0, the annuity formula otherwise), and pre-rounding
totalPayment = monthlyPayment*n and totalInterest = totalPayment - P. -/
theorem claim_C1 (P rate : ℚ) (y : ℕ) :
    (calcRaw P rate y .repayment).monthlyPayment = specMonthlyRepayment P rate y
    ∧ (rate = 0 →
        (calcRaw P rate y .repayment).monthlyPayment = P / ((y * 12 : ℕ) : ℚ))
    ∧ (rate ≠ 0 →
        (calcRaw P rate y .repayment).monthlyPayment =
          P * ((rate / 100 / 12) * (1 + rate / 100 / 12) ^ (y * 12)) /
            ((1 + rate / 100 / 12) ^ (y * 12) - 1))
    ∧ (calcRaw P rate y .repayment).totalPayment =
        (calcRaw P rate y .repayment).monthlyPayment * ((y * 12 : ℕ) : ℚ)
    ∧ (calcRaw P rate y .repayment).totalInterest =
        (calcRaw P rate y .repayment).totalPayment - P := by
  refine ⟨rfl, ?_, ?_, rfl, rfl⟩
  · intro h0
    show (if rate / 100 / 12 = 0 then _ else _) = _
    rw [if_pos (monthlyRate_eq_zero_iff.mpr h0)]
  · intro hne
    show (if rate / 100 / 12 = 0 then _ else _) = _
    rw [if_neg (fun h => hne (monthlyRate_eq_zero_iff.mp h))]

theorem claim_C1_witness :
    (calcRaw 120000 0 10 .repayment).monthlyPayment = 120000 / ((10 * 12 : ℕ) : ℚ)
    ∧ (calcRaw 1 1200 1 .repayment).monthlyPayment =
        1 * ((1200 / 100 / 12) * (1 + 1200 / 100 / 12) ^ (1 * 12)) /
          ((1 + 1200 / 100 / 12) ^ (1 * 12) - 1) :=
  ⟨(claim_C1 120000 0 10).2.1 rfl, (claim_C1 1 1200 1).2.2.1 (by norm_num)⟩

/-- C2: for every input, the interest-only branch of calculate computes
monthlyPayment = P*r (zero when r = 0), pre-rounding totalPayment =
P + monthlyPayment*n and totalInterest = monthlyPayment*n; and for
P = 250000, rate = 6.5, term = 30 the returned rounded result is
monthlyPayment = 1354.17, totalInterest = 487500 = (pre-rounding
monthlyPayment)*360, totalPayment = 250000 + 487500. -/
theorem claim_C2 (P rate : ℚ) (y : ℕ) :
    (calcRaw P rate y .interestOnly).monthlyPayment = P * (rate / 100 / 12)
    ∧ (rate = 0 → (calcRaw P rate y .interestOnly).monthlyPayment = 0)
    ∧ (calcRaw P rate y .interestOnly).totalPayment =
        P + (calcRaw P rate y .interestOnly).monthlyPayment * ((y * 12 : ℕ) : ℚ)
    ∧ (calcRaw P rate y .interestOnly).totalInterest =
        (calcRaw P rate y .interestOnly).monthlyPayment * ((y * 12 : ℕ) : ℚ)
    ∧ (calcRaw 250000 (13 / 2) 30 .interestOnly).monthlyPayment = 8125 / 6
    ∧ (8125 / 6 : ℚ) * 360 = 487500
    ∧ calculateMortgage 250000 (13 / 2) 30 .interestOnly =
        ⟨135417 / 100, 737500, 487500⟩ := by
  have hm : (calcRaw 250000 (13 / 2) 30 .interestOnly).monthlyPayment = 8125 / 6 := by
    show (250000 : ℚ) * (13 / 2 / 100 / 12) = 8125 / 6
    norm_num
  have ht : (calcRaw 250000 (13 / 2) 30 .interestOnly).totalPayment = 737500 := by
    show (250000 : ℚ) + 250000 * (13 / 2 / 100 / 12) * ((30 * 12 : ℕ) : ℚ) = 737500
    norm_num
  have hi : (calcRaw 250000 (13 / 2) 30 .interestOnly).totalInterest = 487500 := by
    show (250000 : ℚ) * (13 / 2 / 100 / 12) * ((30 * 12 : ℕ) : ℚ) = 487500
    norm_num
  refine ⟨rfl, ?_, rfl, rfl, hm, by norm_num, ?_⟩
  · intro h0
    show P * (rate / 100 / 12) = 0
    rw [h0]
    norm_num
  · show (⟨round2 _, round2 _, round2 _⟩ : CalculationResult) = _
    rw [hm, ht, hi, CalculationResult.mk.injEq,
      round2_eq (k := 135417) (by norm_num) (by norm_num),
      round2_eq (k := 73750000) (by norm_num) (by norm_num),
      round2_eq (k := 48750000) (by norm_num) (by norm_num)]
    norm_num

theorem claim_C2_witness :
    (calcRaw 5 0 1 .interestOnly).monthlyPayment = 0 :=
  (claim_C2 5 0 1).2.1 rfl

/-- With rate 0 the repayment branch takes the linear alternative. -/
theorem repayment_monthly_zero_rate (P : ℚ) (y : ℕ) :
    (calcRaw P 0 y .repayment).monthlyPayment = P / ((y * 12 : ℕ) : ℚ) := by
  show (if (0 : ℚ) / 100 / 12 = 0 then P / ((y * 12 : ℕ) : ℚ)
    else P * (0 / 100 / 12 * (1 + 0 / 100 / 12) ^ (y * 12)) /
      ((1 + 0 / 100 / 12) ^ (y * 12) - 1)) = P / ((y * 12 : ℕ) : ℚ)
  rw [if_pos (by norm_num)]

/-- C3: with rate 0 and type Repayment, calculate takes the linear branch and
no division by zero occurs: the annuity denominator (1+r)^n - 1 is nonzero
whenever r > 0, and n = termYears*12 is nonzero; concretely
calculate 120000 0 10 Repayment returns 1000.00, 120000.00 and 0.00. -/
theorem claim_C3 (rate : ℚ) (y : ℕ) :
    (0 < rate → 1 ≤ y → (1 + rate / 100 / 12) ^ (y * 12) - 1 ≠ 0)
    ∧ (1 ≤ y → ((y * 12 : ℕ) : ℚ) ≠ 0)
    ∧ (calcRaw 120000 0 10 .repayment).monthlyPayment = 120000 / ((10 * 12 : ℕ) : ℚ)
    ∧ calculateMortgage 120000 0 10 .repayment = ⟨1000, 120000, 0⟩ := by
  have hbranch : (calcRaw 120000 0 10 .repayment).monthlyPayment =
      120000 / ((10 * 12 : ℕ) : ℚ) := repayment_monthly_zero_rate 120000 10
  refine ⟨?_, ?_, hbranch, ?_⟩
  · intro hr hy
    have hr' : 0 < rate / 100 / 12 := by positivity
    have hn : y * 12 ≠ 0 := by omega
    have : 1 < (1 + rate / 100 / 12) ^ (y * 12) :=
      one_lt_pow₀ (by linarith) hn
    intro hcontra
    nlinarith
  · intro hy
    have : (0 : ℕ) < y * 12 := by omega
    exact_mod_cast this.ne'
  · have hm : (calcRaw 120000 0 10 .repayment).monthlyPayment = 1000 := by
      rw [hbranch]
      norm_num
    have ht : (calcRaw 120000 0 10 .repayment).totalPayment = 120000 := by
      show (calcRaw 120000 0 10 .repayment).monthlyPayment * ((10 * 12 : ℕ) : ℚ) =
        120000
      rw [hm]
      norm_num
    have hi : (calcRaw 120000 0 10 .repayment).totalInterest = 0 := by
      show (calcRaw 120000 0 10 .repayment).totalPayment - 120000 = 0
      rw [ht]
      norm_num
    show (⟨round2 _, round2 _, round2 _⟩ : CalculationResult) = _
    rw [hm, ht, hi, CalculationResult.mk.injEq,
      round2_eq (k := 100000) (by norm_num) (by norm_num),
      round2_eq (k := 12000000) (by norm_num) (by norm_num),
      round2_zero]
    norm_num

theorem claim_C3_witness :
    ((1 + 1200 / 100 / 12 : ℚ) ^ (1 * 12) - 1 ≠ 0)
    ∧ ((1 * 12 : ℕ) : ℚ) ≠ 0 :=
  ⟨(claim_C3 1200 1).1 (by norm_num) le_rfl, (claim_C3 1200 1).2.1 le_rfl⟩

/-- C4: each of the three output fields of calculate is the two-decimal
rounding of the corresponding unrounded value, rounded independently and only
at the final output step: the unrounded values are composed without any
intermediate rounding. -/
theorem claim_C4 (P rate : ℚ) (y : ℕ) (t : MortgageType) :
    (calculateMortgage P rate y t).monthlyPayment =
      round2 (calcRaw P rate y t).monthlyPayment
    ∧ (calculateMortgage P rate y t).totalPayment =
        round2 (calcRaw P rate y t).totalPayment
    ∧ (calculateMortgage P rate y t).totalInterest =
        round2 (calcRaw P rate y t).totalInterest
    ∧ (calcRaw P rate y .repayment).totalPayment =
        (calcRaw P rate y .repayment).monthlyPayment * ((y * 12 : ℕ) : ℚ)
    ∧ (calcRaw P rate y .repayment).totalInterest =
        (calcRaw P rate y .repayment).monthlyPayment * ((y * 12 : ℕ) : ℚ) - P
    ∧ (calcRaw P rate y .interestOnly).totalPayment =
        P + (calcRaw P rate y .interestOnly).monthlyPayment * ((y * 12 : ℕ) : ℚ)
    ∧ (calcRaw P rate y .interestOnly).totalInterest =
        (calcRaw P rate y .interestOnly).monthlyPayment * ((y * 12 : ℕ) : ℚ) :=
  ⟨rfl, rfl, rfl, rfl, rfl, rfl, rfl⟩

/-! ### Claims C5-C6: sign bounds and monotonicity -/

theorem annuity_denom_pos {r : ℚ} (hr : 0 < r) {n : ℕ} (hn : n ≠ 0) :
    0 < (1 + r) ^ n - 1 := by
  have : 1 < (1 + r) ^ n := one_lt_pow₀ (by linarith) hn
  linarith

theorem annuity_numer_bound {r : ℚ} (hr : 0 ≤ r) :
    ∀ n : ℕ, (1 + r) ^ n - 1 ≤ (n : ℚ) * r * (1 + r) ^ n := by
  intro n
  induction n with
  | zero => simp
  | succ n ih =>
    have h1 : (0 : ℚ) ≤ (1 + r) ^ n := by positivity
    have h3 : (1 + r) ^ n ≤ (1 + r) ^ (n + 1) := by
      calc (1 + r) ^ n = (1 + r) ^ n * 1 := (mul_one _).symm
        _ ≤ (1 + r) ^ n * (1 + r) := by nlinarith
        _ = (1 + r) ^ (n + 1) := (pow_succ _ _).symm
    have h0 : (0 : ℚ) ≤ ((n : ℚ) + 1) * r := by positivity
    have hstep : (1 + r) ^ (n + 1) = (1 + r) ^ n + r * (1 + r) ^ n := by
      rw [pow_succ]
      ring
    have hlast : ((n : ℚ) + 1) * r * (1 + r) ^ n ≤
        ((n : ℚ) + 1) * r * (1 + r) ^ (n + 1) :=
      mul_le_mul_of_nonneg_left h3 h0
    push_cast
    calc (1 + r) ^ (n + 1) - 1 = ((1 + r) ^ n - 1) + r * (1 + r) ^ n := by
          rw [hstep]; ring
      _ ≤ (n : ℚ) * r * (1 + r) ^ n + r * (1 + r) ^ n := by linarith
      _ = ((n : ℚ) + 1) * r * (1 + r) ^ n := by ring
      _ ≤ ((n : ℚ) + 1) * r * (1 + r) ^ (n + 1) := hlast

/-- The unrounded repayment monthly payment is positive for a positive
principal when the rate is non-negative and the term is at least a year. -/
theorem calcRaw_repayment_monthly_pos {P rate : ℚ} {y : ℕ} (hP : 0 < P)
    (hr : 0 ≤ rate) (hy : 1 ≤ y) :
    0 < (calcRaw P rate y .repayment).monthlyPayment := by
  have hn : ((y * 12 : ℕ) : ℚ) > 0 := by
    have : (0 : ℕ) < y * 12 := by omega
    exact_mod_cast this
  show 0 < if rate / 100 / 12 = 0 then P / ((y * 12 : ℕ) : ℚ)
    else P * (rate / 100 / 12 * (1 + rate / 100 / 12) ^ (y * 12)) /
      ((1 + rate / 100 / 12) ^ (y * 12) - 1)
  split
  · positivity
  · next h =>
    have hr' : 0 < rate / 100 / 12 := by
      rcases lt_or_eq_of_le hr with h' | h'
      · positivity
      · exact absurd (monthlyRate_eq_zero_iff.mpr h'.symm) h
    have hd : 0 < (1 + rate / 100 / 12) ^ (y * 12) - 1 :=
      annuity_denom_pos hr' (by omega)
    have hnum : 0 < P * (rate / 100 / 12 * (1 + rate / 100 / 12) ^ (y * 12)) := by
      positivity
    positivity

/-- The unrounded repayment total payment is at least the principal. -/
theorem calcRaw_repayment_total_ge {P rate : ℚ} {y : ℕ} (hP : 0 < P)
    (hr : 0 ≤ rate) (hy : 1 ≤ y) :
    P ≤ (calcRaw P rate y .repayment).totalPayment := by
  have hn : (0 : ℚ) < ((y * 12 : ℕ) : ℚ) := by
    have : (0 : ℕ) < y * 12 := by omega
    exact_mod_cast this
  show P ≤ (if rate / 100 / 12 = 0 then P / ((y * 12 : ℕ) : ℚ)
    else P * (rate / 100 / 12 * (1 + rate / 100 / 12) ^ (y * 12)) /
      ((1 + rate / 100 / 12) ^ (y * 12) - 1)) * ((y * 12 : ℕ) : ℚ)
  split
  · rw [div_mul_cancel₀ _ hn.ne']
  · next h =>
    set r := rate / 100 / 12 with hrdef
    have hr' : 0 < r := by
      rcases lt_or_eq_of_le hr with h' | h'
      · rw [hrdef]
        positivity
      · exact absurd (monthlyRate_eq_zero_iff.mpr h'.symm) h
    set n : ℕ := y * 12 with hndef
    have hd : 0 < (1 + r) ^ n - 1 := annuity_denom_pos hr' (by omega)
    rw [div_mul_eq_mul_div, le_div_iff₀ hd]
    have hbound := annuity_numer_bound hr'.le n
    nlinarith [mul_le_mul_of_nonneg_left hbound hP.le]

/-- C5 (amended): for every validated input the rounded repayment outputs are
non-negative; the rounded interest-only monthly payment and total interest
are non-negative; the unrounded interest-only total payment is at least the
principal, and the rounded one is at least the rounded principal (the
returned totalPayment itself can round below a sub-cent principal). -/
theorem claim_C5 (P rate : ℚ) (y : ℕ) (hP : 0 < P) (hr : 0 ≤ rate)
    (hy : 1 ≤ y) :
    (0 ≤ (calculateMortgage P rate y .repayment).monthlyPayment
      ∧ 0 ≤ (calculateMortgage P rate y .repayment).totalPayment
      ∧ 0 ≤ (calculateMortgage P rate y .repayment).totalInterest)
    ∧ (0 ≤ (calculateMortgage P rate y .interestOnly).monthlyPayment
      ∧ 0 ≤ (calculateMortgage P rate y .interestOnly).totalInterest
      ∧ P ≤ (calcRaw P rate y .interestOnly).totalPayment
      ∧ round2 P ≤ (calculateMortgage P rate y .interestOnly).totalPayment) := by
  have hm := calcRaw_repayment_monthly_pos hP hr hy
  have hn : (0 : ℚ) ≤ ((y * 12 : ℕ) : ℚ) := Nat.cast_nonneg _
  have hmr : (0 : ℚ) ≤ rate / 100 / 12 := by positivity
  have hio_m : (calcRaw P rate y .interestOnly).monthlyPayment =
      P * (rate / 100 / 12) := rfl
  have hio_mn : 0 ≤ (calcRaw P rate y .interestOnly).monthlyPayment := by
    rw [hio_m]
    positivity
  have hio_tot : P ≤ (calcRaw P rate y .interestOnly).totalPayment := by
    show P ≤ P + (calcRaw P rate y .interestOnly).monthlyPayment * ((y * 12 : ℕ) : ℚ)
    nlinarith
  refine ⟨⟨round2_nonneg hm.le, round2_nonneg ?_, round2_nonneg ?_⟩,
    round2_nonneg hio_mn, round2_nonneg ?_, hio_tot, round2_mono hio_tot⟩
  · show 0 ≤ (calcRaw P rate y .repayment).monthlyPayment * ((y * 12 : ℕ) : ℚ)
    positivity
  · have := calcRaw_repayment_total_ge hP hr hy
    show 0 ≤ (calcRaw P rate y .repayment).totalPayment - P
    linarith
  · rw [show (calcRaw P rate y .interestOnly).totalInterest =
      (calcRaw P rate y .interestOnly).monthlyPayment * ((y * 12 : ℕ) : ℚ) from rfl]
    positivity

theorem claim_C5_witness :
    0 ≤ (calculateMortgage 120000 0 10 .repayment).monthlyPayment
    ∧ 120000 ≤ (calcRaw 120000 0 10 .interestOnly).totalPayment :=
  ⟨(claim_C5 120000 0 10 (by norm_num) le_rfl (by norm_num)).1.1,
    (claim_C5 120000 0 10 (by norm_num) le_rfl (by norm_num)).2.2.2.1⟩

/-- C5 counterexample: the returned (rounded) interest-only totalPayment can
fall below the principal: for P = 1/250 = 0.004, rate 0, term 1, the handler
returns totalPayment = 0.00 < 0.004. -/
theorem claim_C5_counterexample :
    (0 : ℚ) < 1 / 250 ∧ (0 : ℚ) ≤ 0 ∧ 1 ≤ 1
    ∧ (calculateMortgage (1 / 250) 0 1 .interestOnly).totalPayment < 1 / 250 := by
  have hm : (calcRaw (1 / 250) 0 1 .interestOnly).totalPayment = 1 / 250 := by
    show (1 / 250 : ℚ) + 1 / 250 * (0 / 100 / 12) * ((1 * 12 : ℕ) : ℚ) = 1 / 250
    norm_num
  refine ⟨by norm_num, le_rfl, le_rfl, ?_⟩
  show round2 (calcRaw (1 / 250) 0 1 .interestOnly).totalPayment < 1 / 250
  rw [hm, round2_eq (k := 0) (by norm_num) (by norm_num)]
  norm_num

/-- The unrounded repayment monthly payment is strictly increasing in the
principal. -/
theorem calcRaw_repayment_monthly_strictMono {rate P1 P2 : ℚ} {y : ℕ}
    (hr : 0 ≤ rate) (hy : 1 ≤ y) (h12 : P1 < P2) :
    (calcRaw P1 rate y .repayment).monthlyPayment <
      (calcRaw P2 rate y .repayment).monthlyPayment := by
  have hn : (0 : ℚ) < ((y * 12 : ℕ) : ℚ) := by
    have : (0 : ℕ) < y * 12 := by omega
    exact_mod_cast this
  show (if rate / 100 / 12 = 0 then P1 / ((y * 12 : ℕ) : ℚ)
      else P1 * (rate / 100 / 12 * (1 + rate / 100 / 12) ^ (y * 12)) /
        ((1 + rate / 100 / 12) ^ (y * 12) - 1)) <
    (if rate / 100 / 12 = 0 then P2 / ((y * 12 : ℕ) : ℚ)
      else P2 * (rate / 100 / 12 * (1 + rate / 100 / 12) ^ (y * 12)) /
        ((1 + rate / 100 / 12) ^ (y * 12) - 1))
  split
  · exact div_lt_div_of_pos_right h12 hn
  · next h =>
    have hr' : 0 < rate / 100 / 12 := by
      rcases lt_or_eq_of_le hr with h' | h'
      · positivity
      · exact absurd (monthlyRate_eq_zero_iff.mpr h'.symm) h
    have hd : 0 < (1 + rate / 100 / 12) ^ (y * 12) - 1 :=
      annuity_denom_pos hr' (by omega)
    have hk : 0 < rate / 100 / 12 * (1 + rate / 100 / 12) ^ (y * 12) /
        ((1 + rate / 100 / 12) ^ (y * 12) - 1) := by
      have hnum : 0 < rate / 100 / 12 * (1 + rate / 100 / 12) ^ (y * 12) := by
        positivity
      exact div_pos hnum hd
    have hrw : ∀ P : ℚ,
        P * (rate / 100 / 12 * (1 + rate / 100 / 12) ^ (y * 12)) /
            ((1 + rate / 100 / 12) ^ (y * 12) - 1) =
          P * (rate / 100 / 12 * (1 + rate / 100 / 12) ^ (y * 12) /
            ((1 + rate / 100 / 12) ^ (y * 12) - 1)) := fun P =>
      mul_div_assoc P _ _
    rw [hrw P1, hrw P2]
    exact mul_lt_mul_of_pos_right h12 hk

/-- C6 (amended): with rate and term fixed, the unrounded monthly payment is
strictly increasing in the principal for Repayment (any rate) and for
InterestOnly with a positive rate, while with rate 0 the interest-only
monthly payment is constantly 0; the rounded monthly payment returned by
calculate is monotone non-decreasing in the principal for both types (equal
rounded outputs for distinct principals are possible). -/
theorem claim_C6 (rate P1 P2 : ℚ) (y : ℕ) (hr : 0 ≤ rate) (hy : 1 ≤ y)
    (_h1 : 0 < P1) (h12 : P1 < P2) :
    ((calcRaw P1 rate y .repayment).monthlyPayment <
      (calcRaw P2 rate y .repayment).monthlyPayment)
    ∧ (0 < rate →
        (calcRaw P1 rate y .interestOnly).monthlyPayment <
          (calcRaw P2 rate y .interestOnly).monthlyPayment)
    ∧ (rate = 0 →
        (calcRaw P1 rate y .interestOnly).monthlyPayment = 0
        ∧ (calcRaw P2 rate y .interestOnly).monthlyPayment = 0)
    ∧ (∀ t, (calculateMortgage P1 rate y t).monthlyPayment ≤
        (calculateMortgage P2 rate y t).monthlyPayment) := by
  have hrepay := calcRaw_repayment_monthly_strictMono hr hy h12
  have hio : ∀ P : ℚ, (calcRaw P rate y .interestOnly).monthlyPayment =
      P * (rate / 100 / 12) := fun _ => rfl
  refine ⟨hrepay, ?_, ?_, ?_⟩
  · intro hpos
    rw [hio, hio]
    have : 0 < rate / 100 / 12 := by positivity
    exact mul_lt_mul_of_pos_right h12 this
  · intro h0
    rw [hio, hio, h0]
    norm_num
  · intro t
    match t with
    | .repayment => exact round2_mono hrepay.le
    | .interestOnly =>
      refine round2_mono ?_
      rw [hio, hio]
      have : (0 : ℚ) ≤ rate / 100 / 12 := by positivity
      exact mul_le_mul_of_nonneg_right h12.le this

theorem claim_C6_witness :
    (calcRaw 1 0 1 .repayment).monthlyPayment <
      (calcRaw 2 0 1 .repayment).monthlyPayment :=
  (claim_C6 0 1 2 1 le_rfl le_rfl one_pos one_lt_two).1

/-- C6 counterexample: with rate 0 and term 1 fixed and principals 1 < 2, the
interest-only monthly payments returned by calculate are both 0, so the
returned monthly payment is not strictly increasing in the principal. -/
theorem claim_C6_counterexample :
    (0 : ℚ) ≤ 0 ∧ 1 ≤ 1 ∧ (0 : ℚ) < 1 ∧ (1 : ℚ) < 2
    ∧ ¬ ((calculateMortgage 1 0 1 .interestOnly).monthlyPayment <
        (calculateMortgage 2 0 1 .interestOnly).monthlyPayment) := by
  have h1 : (calcRaw 1 0 1 .interestOnly).monthlyPayment = 0 := by
    show (1 : ℚ) * (0 / 100 / 12) = 0
    norm_num
  have h2 : (calcRaw 2 0 1 .interestOnly).monthlyPayment = 0 := by
    show (2 : ℚ) * (0 / 100 / 12) = 0
    norm_num
  refine ⟨le_rfl, le_rfl, by norm_num, by norm_num, ?_⟩
  show ¬ (round2 (calcRaw 1 0 1 .interestOnly).monthlyPayment <
    round2 (calcRaw 2 0 1 .interestOnly).monthlyPayment)
  rw [h1, h2]
  exact lt_irrefl _

/-! ### Claims C7-C10: the validator and the Calculate action -/

/-- C7: the validator is a total function into the error record; each field's
entry is computed from that field's raw string alone by its own rule (all
three fields always checked, no short-circuiting); the boolean it reports is
true exactly when the error record is empty; and each field is accepted
exactly when its raw string coerces to a number satisfying the exact domain
predicate, with no rounding or clamping of the coerced value. -/
theorem claim_C7 (a r t : String) :
    validateForm a r t =
      ⟨validateLoanAmount a, validateInterestRate r, validateLoanTerm t⟩
    ∧ (∀ r' t', (validateForm a r' t').loanAmount = (validateForm a r t).loanAmount)
    ∧ (∀ a' t', (validateForm a' r t').interestRate = (validateForm a r t).interestRate)
    ∧ (∀ a' r', (validateForm a' r' t).loanTerm = (validateForm a r t).loanTerm)
    ∧ (formValid (validateForm a r t) = true ↔
        validateForm a r t = ⟨none, none, none⟩)
    ∧ (validateLoanAmount a = none ↔
        a ≠ "" ∧ ∃ v, jsNumber a = some v ∧ 0 < v)
    ∧ (validateInterestRate r = none ↔
        r ≠ "" ∧ ∃ v, jsNumber r = some v ∧ 0 ≤ v)
    ∧ (validateLoanTerm t = none ↔
        t ≠ "" ∧ ∃ v, jsNumber t = some v ∧ 0 < v ∧ (⌊v⌋ : ℚ) = v) := by
  refine ⟨rfl, fun _ _ => rfl, fun _ _ => rfl, fun _ _ => rfl, ?_, ?_, ?_, ?_⟩
  · constructor
    · intro h
      rw [formValid, errorCount] at h
      set ea := (validateForm a r t).loanAmount with hea
      set er := (validateForm a r t).interestRate with her
      set et := (validateForm a r t).loanTerm with het
      have : ea = none ∧ er = none ∧ et = none := by
        rcases ea with _ | x <;> rcases er with _ | y <;> rcases et with _ | z <;>
          simp_all
      show (⟨ea, er, et⟩ : FormErrors) = ⟨none, none, none⟩
      rw [this.1, this.2.1, this.2.2]
    · intro h
      rw [h]
      rfl
  · rw [validateLoanAmount]
    split
    · next h => simp [h]
    · next h =>
      rcases hp : jsNumber a with _ | v
      · simp [h]
      · simp only [h, ne_eq, not_false_iff, true_and]
        split
        · next hv =>
          constructor
          · intro hc
            exact absurd hc (by simp)
          · rintro ⟨w, hw, hwpos⟩
            obtain rfl : v = w := by injection hw
            exact absurd hwpos hv.not_lt
        · next hv =>
          simp only [true_iff]
          exact ⟨v, rfl, not_le.mp hv⟩
  · rw [validateInterestRate]
    split
    · next h => simp [h]
    · next h =>
      rcases hp : jsNumber r with _ | v
      · simp [h]
      · simp only [h, ne_eq, not_false_iff, true_and]
        split
        · next hv =>
          constructor
          · intro hc
            exact absurd hc (by simp)
          · rintro ⟨w, hw, hwnn⟩
            obtain rfl : v = w := by injection hw
            exact absurd hwnn hv.not_le
        · next hv =>
          simp only [true_iff]
          exact ⟨v, rfl, not_lt.mp hv⟩
  · rw [validateLoanTerm]
    split
    · next h => simp [h]
    · next h =>
      rcases hp : jsNumber t with _ | v
      · simp [h]
      · simp only [h, ne_eq, not_false_iff, true_and]
        split
        · next hv =>
          constructor
          · intro hc
            exact absurd hc (by simp)
          · rintro ⟨w, hw, hwpos, hwint⟩
            obtain rfl : v = w := by injection hw
            rcases hv with hv | hv
            · exact absurd hwpos hv.not_lt
            · exact absurd hwint hv
        · next hv =>
          push_neg at hv
          simp only [true_iff]
          exact ⟨v, rfl, hv.1, hv.2⟩

/-- C8: the per-field messages and rules: an empty principal yields the
required message while a non-empty principal that fails the numeric coercion
or is non-positive yields the invalid message; a parsed negative rate such as
"-1" is rejected while "0" is accepted; a term that fails the coercion, is
non-positive, or is a non-integer such as "2.5" is rejected; and validating
("", "6.5", "30") produces an error record with only the principal entry. -/
theorem claim_C8 :
    validateLoanAmount "" = some "Loan amount is required"
    ∧ (∀ s, s ≠ "" → jsNumber s = none →
        validateLoanAmount s = some "Please enter a valid loan amount")
    ∧ (∀ s v, s ≠ "" → jsNumber s = some v → v ≤ 0 →
        validateLoanAmount s = some "Please enter a valid loan amount")
    ∧ validateInterestRate "-1" = some "Please enter a valid interest rate"
    ∧ validateInterestRate "0" = none
    ∧ (∀ s, s ≠ "" → jsNumber s = none →
        validateLoanTerm s = some "Please enter a valid loan term in years")
    ∧ (∀ s v, s ≠ "" → jsNumber s = some v → (v ≤ 0 ∨ (⌊v⌋ : ℚ) ≠ v) →
        validateLoanTerm s = some "Please enter a valid loan term in years")
    ∧ validateLoanTerm "2.5" = some "Please enter a valid loan term in years"
    ∧ validateForm "" "6.5" "30" = ⟨some "Loan amount is required", none, none⟩ := by
  have hfloor25 : (⌊(5 / 2 : ℚ)⌋ : ℚ) = (2 : ℤ) :=
    floor_eval (by norm_num) (by norm_num)
  refine ⟨rfl, ?_, ?_, ?_, ?_, ?_, ?_, ?_, ?_⟩
  · intro s hs hp
    rw [validateLoanAmount, if_neg hs, hp]
  · intro s v hs hp hv
    rw [validateLoanAmount, if_neg hs, hp]
    simp [hv]
  · exact validateInterestRate_neg (by decide) jsNumber_neg_one (by norm_num)
  · exact validateInterestRate_some (by decide) jsNumber_zero_str le_rfl
  · intro s hs hp
    rw [validateLoanTerm, if_neg hs, hp]
  · intro s v hs hp hc
    exact validateLoanTerm_reject hs hp hc
  · refine validateLoanTerm_reject (by decide) jsNumber_two_point_five (Or.inr ?_)
    rw [hfloor25]
    norm_num
  · exact validateForm_invalid_example

theorem claim_C8_witness :
    validateLoanAmount "abc" = some "Please enter a valid loan amount"
    ∧ validateLoanAmount "-1" = some "Please enter a valid loan amount"
    ∧ validateLoanTerm "abc" = some "Please enter a valid loan term in years"
    ∧ validateLoanTerm "-1" = some "Please enter a valid loan term in years" :=
  ⟨claim_C8.2.1 "abc" (by decide) jsNumber_abc,
    claim_C8.2.2.1 "-1" (-1) (by decide) jsNumber_neg_one (by norm_num),
    claim_C8.2.2.2.2.2.1 "abc" (by decide) jsNumber_abc,
    claim_C8.2.2.2.2.2.2.1 "-1" (-1) (by decide) jsNumber_neg_one
      (Or.inl (by norm_num))⟩

/-- C9: on every Calculate action the computed result is stored exactly when
validateForm reports an empty error record: on a valid submission the stored
result is the rounded calculation on the coerced inputs, and on a failing one
the stored result is whatever was there before (no new result is computed). -/
theorem claim_C9 (s : IndexState) :
    (formValid (validateForm s.loanAmount s.interestRate s.loanTerm) = true →
      (calculateMortgageAction s).result =
        some (calculateMortgage ((jsNumber s.loanAmount).getD 0)
          ((jsNumber s.interestRate).getD 0)
          (((jsNumber s.loanTerm).getD 0).num.toNat) s.mortgageType))
    ∧ (formValid (validateForm s.loanAmount s.interestRate s.loanTerm) = false →
        (calculateMortgageAction s).result = s.result) := by
  constructor
  · intro h
    rw [calculateMortgageAction]
    simp only [h, if_true]
  · intro h
    rw [calculateMortgageAction]
    simp only [h, Bool.false_eq_true, if_false]

/-- C10: when a Calculate action fails validation, the entire state except
the error record and the submitted flag is left unchanged: in particular a
previously stored result remains stored, and whether a result is displayed
does not change. -/
theorem claim_C10 (s : IndexState)
    (h : formValid (validateForm s.loanAmount s.interestRate s.loanTerm) = false) :
    calculateMortgageAction s =
      { s with
        errors := validateForm s.loanAmount s.interestRate s.loanTerm
        submitted := true }
    ∧ (calculateMortgageAction s).result = s.result
    ∧ displaysResult (calculateMortgageAction s) = displaysResult s := by
  have hact : calculateMortgageAction s =
      { s with
        errors := validateForm s.loanAmount s.interestRate s.loanTerm
        submitted := true } := by
    rw [calculateMortgageAction]
    simp only [h, Bool.false_eq_true, if_false]
  refine ⟨hact, ?_, ?_⟩
  · rw [hact]
  · rw [displaysResult, displaysResult, hact]

theorem claim_C9_witness :
    (calculateMortgageAction
      ⟨"120000", "0", "10", .repayment, none, ⟨none, none, none⟩, false⟩).result =
      some (calculateMortgage ((jsNumber "120000").getD 0)
        ((jsNumber "0").getD 0) (((jsNumber "10").getD 0).num.toNat) .repayment)
    ∧ (calculateMortgageAction
        ⟨"", "6.5", "30", .repayment, some ⟨1, 2, 3⟩, ⟨none, none, none⟩,
          false⟩).result = some ⟨1, 2, 3⟩ :=
  ⟨(claim_C9 ⟨"120000", "0", "10", .repayment, none, ⟨none, none, none⟩,
      false⟩).1 (by rw [show validateForm "120000" "0" "10" = ⟨none, none, none⟩
        from validateForm_valid_example]; rfl),
    (claim_C9 ⟨"", "6.5", "30", .repayment, some ⟨1, 2, 3⟩,
      ⟨none, none, none⟩, false⟩).2 (by rw [show validateForm "" "6.5" "30" =
        ⟨some "Loan amount is required", none, none⟩
        from validateForm_invalid_example]; rfl)⟩

theorem claim_C10_witness :
    calculateMortgageAction
      ⟨"", "6.5", "30", .repayment, some ⟨1, 2, 3⟩, ⟨none, none, none⟩, false⟩ =
      ⟨"", "6.5", "30", .repayment, some ⟨1, 2, 3⟩, validateForm "" "6.5" "30",
        true⟩ :=
  (claim_C10 ⟨"", "6.5", "30", .repayment, some ⟨1, 2, 3⟩, ⟨none, none, none⟩,
    false⟩ (by rw [show validateForm "" "6.5" "30" =
      ⟨some "Loan amount is required", none, none⟩
      from validateForm_invalid_example]; rfl)).1

end Mortgage
